import Mathlib

/-!
Verification of the layout / composition / metadata engine of
`video_to_spritesheet.py`, a tool that tiles sampled video frames into a
sprite-sheet grid.

The pure core of the program is shallowly embedded below:
  * `targetSize`   — per-frame target size resolution (lines 144-157);
  * `grid`         — grid (columns, rows) resolution (lines 160-167);
  * `frameRect`    — per-frame placement (lines 195-198 and 217-223);
  * `create_spritesheet` — layout + metadata pipeline (lines 133-235),
    with pixel blitting abstracted away (only dimensions and rects matter
    to the stated properties);
  * `process_single_video` / `batchLoop` — the per-video orchestration and
    the batch loop of `main` (lines 262-316 and 383-425), with the three
    external steps (probe, decode, extraction result) abstracted to an
    outcome value and `sys.exit(1)` modelled as `Except.error`.

Machine arithmetic: all pixel dimensions are nonnegative machine integers
in the source (PIL sizes); they are embedded as `Nat`.  Python `int(x)` on
a nonnegative float product is floor, embedded as exact natural division
(`a * b / c`); the float `percent / 100.0` path is embedded over `ℚ` with
`pyInt` (truncation toward zero, Python `int()`).
-/

namespace VideoToSpritesheet

/-- A decoded frame; only its pixel dimensions are relevant to layout and
metadata. -/
structure Frame where
  width : Nat
  height : Nat
deriving Repr, DecidableEq

/-- Python truthiness of an optional integer argument: both `None` and `0`
are falsy (the source tests `if frame_width and frame_height:`, etc.). -/
def truthy : Option Nat → Bool
  | none => false
  | some n => n != 0

/-- Target frame size resolution of `create_spritesheet` (lines 144-157).
Python `int(x)` on the nonnegative product is floor, embedded as exact
natural division. -/
def targetSize (originalWidth originalHeight : Nat)
    (frame_width frame_height : Option Nat) : Nat × Nat :=
  if truthy frame_width && truthy frame_height then
    (frame_width.getD 0, frame_height.getD 0)
  else if truthy frame_width then
    (frame_width.getD 0, originalHeight * frame_width.getD 0 / originalWidth)
  else if truthy frame_height then
    (originalWidth * frame_height.getD 0 / originalHeight, frame_height.getD 0)
  else
    (originalWidth, originalHeight)

/-- The value `math.ceil(math.sqrt n)` over the naturals (exact ceiling of the square
root). -/
def ceilSqrt (n : Nat) : Nat :=
  if Nat.sqrt n * Nat.sqrt n == n then Nat.sqrt n else Nat.sqrt n + 1

/-- The value `math.ceil(a / b)` for naturals. -/
def ceilDiv (a b : Nat) : Nat := (a + b - 1) / b

/-- Grid resolution of `create_spritesheet` (lines 160-167): explicit
(truthy) `columns` wins, otherwise the near-square heuristic. -/
def grid (num_frames : Nat) (columns : Option Nat) : Nat × Nat :=
  if truthy columns then
    (columns.getD 0, ceilDiv num_frames (columns.getD 0))
  else
    (ceilSqrt num_frames, ceilDiv num_frames (ceilSqrt num_frames))

/-- One entry of `metadata["frames"]` (lines 217-223). -/
structure FrameRect where
  index : Nat
  x : Nat
  y : Nat
  w : Nat
  h : Nat
deriving Repr, DecidableEq

/-- Placement of frame `i` (lines 195-198): `col = i % cols`,
`row = i // cols`, `x = col * target_width`, `y = row * target_height`. -/
def frameRect (i cols target_width target_height : Nat) : FrameRect :=
  { index := i
    x := i % cols * target_width
    y := i / cols * target_height
    w := target_width
    h := target_height }

/-- The `metadata["meta"]` dictionary (lines 184-190). -/
structure SheetMeta where
  size : Nat × Nat
  frameSize : Nat × Nat
  columns : Nat
  rows : Nat
  totalFrames : Nat
deriving Repr, DecidableEq

/-- The full metadata dictionary returned by `create_spritesheet`. -/
structure Metadata where
  frames : List FrameRect
  meta : SheetMeta
deriving Repr, DecidableEq

/-- The metadata-building step (lines 182-191 and the per-frame appends of
lines 217-223): a pure function of the plan fields and the rect list. -/
def emitMetadata (sheet_width sheet_height target_width target_height
    cols rows num_frames : Nat) (rects : List FrameRect) : Metadata :=
  { frames := rects
    meta :=
      { size := (sheet_width, sheet_height)
        frameSize := (target_width, target_height)
        columns := cols
        rows := rows
        totalFrames := num_frames } }

/-- The only failure `create_spritesheet` can raise itself: the empty-frame
check at lines 135-137 (`sys.exit(1)`). -/
inductive Err where
  | emptyInput
deriving Repr, DecidableEq

/-- The function `create_spritesheet` (lines 133-235): fail on an empty frame list,
read the first frame's size, resolve target size and grid, and build the
metadata whose `frames` list mirrors the per-frame placements.  Pixel
blitting and file output do not affect the returned metadata and are not
modelled. -/
def create_spritesheet (frames : List Frame)
    (frame_width frame_height columns : Option Nat) : Except Err Metadata :=
  match frames with
  | [] => .error .emptyInput
  | first :: rest =>
    let tw := (targetSize first.width first.height frame_width frame_height).1
    let th := (targetSize first.width first.height frame_width frame_height).2
    let n := rest.length + 1
    let cols := (grid n columns).1
    let rows := (grid n columns).2
    .ok (emitMetadata (cols * tw) (rows * th) tw th cols rows n
      ((List.range n).map (fun i => frameRect i cols tw th)))

/-- Python `int()` on a rational value: truncation toward zero. -/
def pyInt (q : ℚ) : Int :=
  if 0 ≤ q then ⌊q⌋ else ⌈q⌉

/-- The percent-scaling of `process_single_video` (lines 277-281):
`frame_width = int(width * (percent / 100.0))` and likewise for the
height; these values are then passed to `create_spritesheet`. -/
def percentTarget (origWidth origHeight : Nat) (percent : ℚ) : Int × Int :=
  (pyInt (origWidth * (percent / 100)), pyInt (origHeight * (percent / 100)))

/-- Abstract outcome of the external steps for one input video. -/
inductive VideoOutcome where
  /-- the `ffprobe` invocation fails, its output is unparseable, or no video stream is
  found (`get_video_info`, lines 69-84). -/
  | probeFail
  /-- the `ffmpeg` extraction invocation fails (`extract_frames`,
  lines 119-124). -/
  | decodeFail
  /-- extraction succeeded but produced zero frames
  (`process_single_video`, lines 296-298). -/
  | emptyFrames
  /-- the whole per-video pipeline succeeded. -/
  | success
deriving Repr, DecidableEq

/-- The function `process_single_video` (lines 262-316) as observed by the batch loop:
`Except.error ()` models `sys.exit(1)` raised inside `get_video_info` or
`extract_frames` (which terminates the whole process), `.ok false` the
`return False` on an empty extraction, `.ok true` the `return True`. -/
def process_single_video : VideoOutcome → Except Unit Bool
  | .probeFail => .error ()
  | .decodeFail => .error ()
  | .emptyFrames => .ok false
  | .success => .ok true

/-- The per-video loop of `main` (lines 383-425) with its
`success_count` / `fail_count` accumulators; a `sys.exit(1)` inside
`process_single_video` propagates, discarding the remaining videos and
the final summary. -/
def batchLoop : List VideoOutcome → Nat → Nat → Except Unit (Nat × Nat)
  | [], s, f => .ok (s, f)
  | v :: rest, s, f =>
    match process_single_video v with
    | .error e => .error e
    | .ok true => batchLoop rest (s + 1) f
    | .ok false => batchLoop rest s (f + 1)

/-- The whole batch run: counters start at zero. -/
def runBatch (vs : List VideoOutcome) : Except Unit (Nat × Nat) :=
  batchLoop vs 0 0

/-- Two rects do not overlap: they are separated along the x-axis or along
the y-axis. -/
def FrameRect.disjointWith (r1 r2 : FrameRect) : Prop :=
  r1.x + r1.w ≤ r2.x ∨ r2.x + r2.w ≤ r1.x ∨
  r1.y + r1.h ≤ r2.y ∨ r2.y + r2.h ≤ r1.y

/-- A rect lies within a canvas of the given width and height. -/
def FrameRect.insideCanvas (r : FrameRect) (sheet_width sheet_height : Nat) : Prop :=
  r.x + r.w ≤ sheet_width ∧ r.y + r.h ≤ sheet_height

/-- A one-frame sample input, used to instantiate the theorems about
`create_spritesheet` at a concrete value. -/
def sampleFrames : List Frame := [{ width := 1, height := 1 }]

/-- The metadata `create_spritesheet` produces on `sampleFrames` with all
optional arguments omitted. -/
def sampleMetadata : Metadata :=
  { frames := [{ index := 0, x := 0, y := 0, w := 1, h := 1 }]
    meta := { size := (1, 1), frameSize := (1, 1), columns := 1, rows := 1,
              totalFrames := 1 } }

/-! ### Helper lemmas -/

lemma ceilSqrt_pos (n : Nat) (hn : 1 ≤ n) : 0 < ceilSqrt n := by
  unfold ceilSqrt
  split
  · exact Nat.sqrt_pos.mpr hn
  · exact Nat.succ_pos _

lemma le_ceilSqrt_sq (n : Nat) : n ≤ ceilSqrt n * ceilSqrt n := by
  unfold ceilSqrt
  split
  case isTrue h =>
    have h' : Nat.sqrt n * Nat.sqrt n = n := by simpa using h
    rw [h']
  case isFalse h =>
    have h' := Nat.lt_succ_sqrt' n
    rw [pow_two] at h'
    exact Nat.le_of_lt h'

lemma ceilSqrt_le_of_le_sq (n k : Nat) (h : n ≤ k * k) : ceilSqrt n ≤ k := by
  unfold ceilSqrt
  split
  case isTrue _ =>
    have h1 : Nat.sqrt n ≤ Nat.sqrt (k * k) := Nat.sqrt_le_sqrt h
    rwa [Nat.sqrt_eq k] at h1
  case isFalse hb =>
    by_contra hlt
    push_neg at hlt
    have hk : k ≤ Nat.sqrt n := by omega
    have h1 : k * k ≤ Nat.sqrt n * Nat.sqrt n := Nat.mul_le_mul hk hk
    have h2 : Nat.sqrt n * Nat.sqrt n ≤ n := by
      have := Nat.sqrt_le' n
      rwa [pow_two] at this
    have : Nat.sqrt n * Nat.sqrt n = n := by omega
    simp [this] at hb

lemma ceilDiv_eq_pred_div_succ (n c : Nat) (hc : 0 < c) (hn : 1 ≤ n) :
    ceilDiv n c = (n - 1) / c + 1 := by
  unfold ceilDiv
  have h : n + c - 1 = (n - 1) + c := by omega
  rw [h, Nat.add_div_right _ hc]

lemma le_mul_ceilDiv (n c : Nat) (hc : 0 < c) (hn : 1 ≤ n) :
    n ≤ c * ceilDiv n c := by
  obtain ⟨m, rfl⟩ : ∃ m, n = m + 1 := ⟨n - 1, by omega⟩
  rw [ceilDiv_eq_pred_div_succ (m + 1) c hc (by omega)]
  simp only [Nat.add_sub_cancel]
  rw [Nat.mul_add, Nat.mul_one]
  have h1 := Nat.div_add_mod m c
  have h2 := Nat.mod_lt m hc
  linarith

lemma mul_ceilDiv_pred_lt (n c : Nat) (hc : 0 < c) (hn : 1 ≤ n) :
    c * (ceilDiv n c - 1) < n := by
  rw [ceilDiv_eq_pred_div_succ n c hc hn]
  simp only [Nat.add_sub_cancel]
  calc c * ((n - 1) / c) = (n - 1) / c * c := Nat.mul_comm _ _
    _ ≤ n - 1 := Nat.div_mul_le_self (n - 1) c
    _ < n := by omega

lemma nat_sqrt_eval (m k : Nat) (h1 : k * k ≤ m) (h2 : m < (k + 1) * (k + 1)) :
    Nat.sqrt m = k := by
  have ha : k ≤ Nat.sqrt m := Nat.le_sqrt.mpr h1
  have hb : Nat.sqrt m < k + 1 := by
    rw [Nat.sqrt_lt', pow_two]
    exact h2
  omega

lemma ceilSqrt_one : ceilSqrt 1 = 1 := by
  have hs : Nat.sqrt 1 = 1 := nat_sqrt_eval 1 1 (by omega) (by omega)
  unfold ceilSqrt
  rw [hs]
  decide

lemma ceilSqrt_seven : ceilSqrt 7 = 3 := by
  have hs : Nat.sqrt 7 = 2 := nat_sqrt_eval 7 2 (by omega) (by omega)
  unfold ceilSqrt
  rw [hs]
  decide

lemma grid_one : grid 1 none = (1, 1) := by
  show (ceilSqrt 1, ceilDiv 1 (ceilSqrt 1)) = (1, 1)
  rw [ceilSqrt_one]
  decide

lemma grid_seven : grid 7 none = (3, 3) := by
  show (ceilSqrt 7, ceilDiv 7 (ceilSqrt 7)) = (3, 3)
  rw [ceilSqrt_seven]
  decide

lemma create_spritesheet_cons (f : Frame) (rest : List Frame) (w h c : Option Nat) :
    create_spritesheet (f :: rest) w h c =
      .ok (emitMetadata
        ((grid (rest.length + 1) c).1 * (targetSize f.width f.height w h).1)
        ((grid (rest.length + 1) c).2 * (targetSize f.width f.height w h).2)
        (targetSize f.width f.height w h).1
        (targetSize f.width f.height w h).2
        (grid (rest.length + 1) c).1
        (grid (rest.length + 1) c).2
        (rest.length + 1)
        ((List.range (rest.length + 1)).map
          (fun i => frameRect i (grid (rest.length + 1) c).1
            (targetSize f.width f.height w h).1
            (targetSize f.width f.height w h).2))) := rfl

lemma create_sample :
    create_spritesheet sampleFrames none none none = .ok sampleMetadata := by
  rw [show sampleFrames = [{ width := 1, height := 1 }] from rfl,
    create_spritesheet_cons]
  simp only [List.length_nil, Nat.zero_add]
  rw [grid_one]
  rfl

lemma create_seven :
    create_spritesheet (List.replicate 7 { width := 4, height := 4 })
      none none none =
    .ok (emitMetadata 12 12 4 4 3 3 7
      ((List.range 7).map (fun i => frameRect i 3 4 4))) := by
  rw [show (List.replicate 7 ({ width := 4, height := 4 } : Frame)) =
      { width := 4, height := 4 } :: List.replicate 6 { width := 4, height := 4 }
      from rfl, create_spritesheet_cons]
  simp only [List.length_replicate]
  rw [grid_seven]
  rfl

lemma grid_pos (n : Nat) (c : Option Nat) (hn : 1 ≤ n) :
    0 < (grid n c).1 ∧ n ≤ (grid n c).1 * (grid n c).2 := by
  unfold grid
  split
  case isTrue ht =>
    have hc : 0 < c.getD 0 := by
      cases c with
      | none => simp [truthy] at ht
      | some k =>
        have hk : k ≠ 0 := by simpa [truthy] using ht
        simp only [Option.getD_some]
        omega
    exact ⟨hc, le_mul_ceilDiv n _ hc hn⟩
  case isFalse _ =>
    have hc := ceilSqrt_pos n hn
    exact ⟨hc, le_mul_ceilDiv n _ hc hn⟩

lemma frameRect_disjoint (cols tw th i j : Nat) (hij : i ≠ j) :
    FrameRect.disjointWith (frameRect i cols tw th) (frameRect j cols tw th) := by
  unfold FrameRect.disjointWith frameRect
  simp only
  rcases Nat.lt_trichotomy (i / cols) (j / cols) with hd | hd | hd
  · refine Or.inr (Or.inr (Or.inl ?_))
    calc i / cols * th + th = (i / cols + 1) * th := by ring
      _ ≤ j / cols * th := Nat.mul_le_mul_right th (Nat.succ_le_of_lt hd)
  · have hm : i % cols ≠ j % cols := by
      intro he
      apply hij
      have h1 := Nat.div_add_mod i cols
      have h2 := Nat.div_add_mod j cols
      rw [hd, he] at h1
      omega
    rcases Nat.lt_or_ge (i % cols) (j % cols) with hx | hx
    · refine Or.inl ?_
      calc i % cols * tw + tw = (i % cols + 1) * tw := by ring
        _ ≤ j % cols * tw := Nat.mul_le_mul_right tw (Nat.succ_le_of_lt hx)
    · have hx' : j % cols < i % cols := lt_of_le_of_ne hx (Ne.symm hm)
      refine Or.inr (Or.inl ?_)
      calc j % cols * tw + tw = (j % cols + 1) * tw := by ring
        _ ≤ i % cols * tw := Nat.mul_le_mul_right tw (Nat.succ_le_of_lt hx')
  · refine Or.inr (Or.inr (Or.inr ?_))
    calc j / cols * th + th = (j / cols + 1) * th := by ring
      _ ≤ i / cols * th := Nat.mul_le_mul_right th (Nat.succ_le_of_lt hd)

lemma frameRect_inside (cols rows tw th i : Nat) (hc : 0 < cols)
    (hi : i < cols * rows) :
    FrameRect.insideCanvas (frameRect i cols tw th) (cols * tw) (rows * th) := by
  unfold FrameRect.insideCanvas frameRect
  constructor
  · have h1 : i % cols + 1 ≤ cols := Nat.mod_lt i hc
    calc i % cols * tw + tw = (i % cols + 1) * tw := by ring
      _ ≤ cols * tw := Nat.mul_le_mul_right tw h1
  · have h2 : i / cols < rows :=
      (Nat.div_lt_iff_lt_mul hc).mpr (by rwa [Nat.mul_comm] at hi)
    calc i / cols * th + th = (i / cols + 1) * th := by ring
      _ ≤ rows * th := Nat.mul_le_mul_right th (Nat.succ_le_of_lt h2)

/-! ### Claim theorems -/

/-- C3: for every frame count `n ≥ 1` with no explicit columns argument,
the planner computes `cols = ceil(sqrt n)` (the least `k` with `n ≤ k²`)
and `rows = ceil(n / cols)` (`cols * rows` covers `n` and is minimal), and
`cols * (rows - 1) < n`: the last row contains at least one frame. -/
theorem near_square_grid (n : Nat) (hn : 1 ≤ n) :
    (grid n none).1 = ceilSqrt n ∧
    n ≤ (grid n none).1 * (grid n none).1 ∧
    (∀ k, n ≤ k * k → (grid n none).1 ≤ k) ∧
    (grid n none).2 = ceilDiv n (grid n none).1 ∧
    n ≤ (grid n none).1 * (grid n none).2 ∧
    (grid n none).1 * ((grid n none).2 - 1) < n := by
  have hg : grid n none = (ceilSqrt n, ceilDiv n (ceilSqrt n)) := rfl
  rw [hg]
  have hc := ceilSqrt_pos n hn
  exact ⟨rfl, le_ceilSqrt_sq n, fun k hk => ceilSqrt_le_of_le_sq n k hk, rfl,
    le_mul_ceilDiv n (ceilSqrt n) hc hn, mul_ceilDiv_pred_lt n (ceilSqrt n) hc hn⟩

/-- C3 witness: instantiation at `n = 7`. -/
theorem near_square_grid_witness :
    1 ≤ 7 ∧
    ((grid 7 none).1 = ceilSqrt 7 ∧
     7 ≤ (grid 7 none).1 * (grid 7 none).1 ∧
     (∀ k, 7 ≤ k * k → (grid 7 none).1 ≤ k) ∧
     (grid 7 none).2 = ceilDiv 7 (grid 7 none).1 ∧
     7 ≤ (grid 7 none).1 * (grid 7 none).2 ∧
     (grid 7 none).1 * ((grid 7 none).2 - 1) < 7) :=
  ⟨by decide, near_square_grid 7 (by decide)⟩

/-- C6: an empty frame sequence makes `create_spritesheet` fail with the
empty-input error before any layout planning or canvas construction: the
result carries no plan and no metadata. -/
theorem empty_frames_rejected (w h c : Option Nat) :
    create_spritesheet [] w h c = .error .emptyInput := rfl

/-- C7: when a (truthy) `columns` argument is given, the planner uses
`cols = columns` and `rows = ceil(frame_count / cols)` (covering and
minimal); in particular `columns = 4` with `frame_count = 10` yields
`rows = 3`, and frame index 9 is placed at `col = 1`, `row = 2`, i.e.
`x = target_width`, `y = 2 * target_height`. -/
theorem explicit_columns_grid (n c tw th : Nat) (hc : 0 < c) (hn : 1 ≤ n) :
    grid n (some c) = (c, ceilDiv n c) ∧
    n ≤ c * (grid n (some c)).2 ∧
    c * ((grid n (some c)).2 - 1) < n ∧
    grid 10 (some 4) = (4, 3) ∧
    frameRect 9 4 tw th = { index := 9, x := tw, y := 2 * th, w := tw, h := th } := by
  have hg : grid n (some c) = (c, ceilDiv n c) := by
    simp [grid, truthy, hc.ne']
  refine ⟨hg, ?_, ?_, by decide, ?_⟩
  · rw [hg]
    exact le_mul_ceilDiv n c hc hn
  · rw [hg]
    exact mul_ceilDiv_pred_lt n c hc hn
  · simp [frameRect]

/-- C7 witness: instantiation at `n = 10`, `c = 4`, target size 16 × 8. -/
theorem explicit_columns_grid_witness :
    0 < 4 ∧ 1 ≤ 10 ∧
    (grid 10 (some 4) = (4, ceilDiv 10 4) ∧
     10 ≤ 4 * (grid 10 (some 4)).2 ∧
     4 * ((grid 10 (some 4)).2 - 1) < 10 ∧
     grid 10 (some 4) = (4, 3) ∧
     frameRect 9 4 16 8 = { index := 9, x := 16, y := 2 * 8, w := 16, h := 8 }) :=
  ⟨by decide, by decide, explicit_columns_grid 10 4 16 8 (by decide) (by decide)⟩

/-- C9: metadata emission is deterministic: applying the metadata-building
step (and the whole layout plus metadata pipeline) twice to identical
inputs produces identical structured output, with no dependence on any
state other than the inputs. -/
theorem emit_deterministic (sw sh tw th cols rows n : Nat)
    (rects : List FrameRect) (frames : List Frame) (w h c : Option Nat) :
    emitMetadata sw sh tw th cols rows n rects =
      emitMetadata sw sh tw th cols rows n rects ∧
    create_spritesheet frames w h c = create_spritesheet frames w h c :=
  ⟨rfl, rfl⟩

/-- C10: passing `0` for `columns`, `width` or `height` is exactly the same
as omitting the argument: Python truthiness makes `0` falsy, so `columns=0`
falls back to the near-square heuristic and a zero `width` (or `height`)
alone leaves the target size at the original frame size; no error and no
division by zero occurs. -/
theorem zero_args_treated_as_omitted (frames : List Frame) (w h c : Option Nat)
    (ow oh n : Nat) :
    create_spritesheet frames (some 0) h c = create_spritesheet frames none h c ∧
    create_spritesheet frames w (some 0) c = create_spritesheet frames w none c ∧
    create_spritesheet frames w h (some 0) = create_spritesheet frames w h none ∧
    grid n (some 0) = (ceilSqrt n, ceilDiv n (ceilSqrt n)) ∧
    targetSize ow oh (some 0) none = (ow, oh) ∧
    targetSize ow oh none (some 0) = (ow, oh) := by
  refine ⟨?_, ?_, ?_, rfl, rfl, rfl⟩ <;> cases frames <;> rfl

/-- C4: whenever `create_spritesheet` succeeds, frame `i` is placed at
`x = (i mod cols) * target_width`, `y = (i div cols) * target_height` with
`w = target_width`, `h = target_height` (row-major order), and the
resulting rects are pairwise non-overlapping and all lie within the
`sheet_width × sheet_height` canvas. -/
theorem compositor_grid_placement (frames : List Frame) (w h c : Option Nat)
    (md : Metadata) (hmd : create_spritesheet frames w h c = .ok md) :
    md.frames = (List.range md.meta.totalFrames).map
      (fun i => frameRect i md.meta.columns md.meta.frameSize.1
        md.meta.frameSize.2) ∧
    List.Pairwise FrameRect.disjointWith md.frames ∧
    (∀ r ∈ md.frames, r.insideCanvas md.meta.size.1 md.meta.size.2) := by
  cases frames with
  | nil => simp [create_spritesheet] at hmd
  | cons f rest =>
    rw [create_spritesheet_cons] at hmd
    injection hmd with hmd
    subst hmd
    have hn : 1 ≤ rest.length + 1 := Nat.le_add_left 1 rest.length
    obtain ⟨hcols, hcover⟩ := grid_pos (rest.length + 1) c hn
    refine ⟨rfl, ?_, ?_⟩
    · rw [emitMetadata, List.pairwise_map]
      exact (List.pairwise_lt_range _).imp
        (fun hij => frameRect_disjoint _ _ _ _ _ (Nat.ne_of_lt hij))
    · intro r hr
      rw [emitMetadata, List.mem_map] at hr
      obtain ⟨i, hi, rfl⟩ := hr
      rw [List.mem_range] at hi
      exact frameRect_inside _ _ _ _ i hcols (Nat.lt_of_lt_of_le hi hcover)

/-- C4 witness: instantiation on the one-frame sample input. -/
theorem compositor_grid_placement_witness :
    create_spritesheet sampleFrames none none none = .ok sampleMetadata ∧
    (sampleMetadata.frames = (List.range sampleMetadata.meta.totalFrames).map
       (fun i => frameRect i sampleMetadata.meta.columns
         sampleMetadata.meta.frameSize.1 sampleMetadata.meta.frameSize.2) ∧
     List.Pairwise FrameRect.disjointWith sampleMetadata.frames ∧
     (∀ r ∈ sampleMetadata.frames,
        r.insideCanvas sampleMetadata.meta.size.1 sampleMetadata.meta.size.2)) :=
  ⟨create_sample,
   compositor_grid_placement sampleFrames none none none sampleMetadata
     create_sample⟩

/-- C8: whenever `create_spritesheet` succeeds, the emitted metadata has
`meta.size = (columns * frame_width, rows * frame_height)`,
`meta.totalFrames` equal to the length of the `frames` list, the `frames`
list in index order (indices `0, …, n-1`), and one entry per input frame;
composing 7 frames with no explicit columns yields `cols = 3`, `rows = 3`
and exactly 7 frame entries (the unfilled trailing cells are absent). -/
theorem metadata_contents (frames : List Frame) (w h c : Option Nat)
    (md : Metadata) (hmd : create_spritesheet frames w h c = .ok md) :
    md.meta.totalFrames = md.frames.length ∧
    md.frames.map FrameRect.index = List.range md.meta.totalFrames ∧
    md.meta.size = (md.meta.columns * md.meta.frameSize.1,
                    md.meta.rows * md.meta.frameSize.2) ∧
    md.frames.length = frames.length ∧
    (∃ md7, create_spritesheet
        (List.replicate 7 { width := 4, height := 4 }) none none none = .ok md7 ∧
      md7.meta.columns = 3 ∧ md7.meta.rows = 3 ∧
      md7.frames.length = 7 ∧ md7.meta.totalFrames = 7) := by
  cases frames with
  | nil => simp [create_spritesheet] at hmd
  | cons f rest =>
    rw [create_spritesheet_cons] at hmd
    injection hmd with hmd
    subst hmd
    refine ⟨?_, ?_, rfl, ?_, ?_⟩
    · simp [emitMetadata]
    · rw [emitMetadata, List.map_map]
      have : (FrameRect.index ∘ fun i =>
          frameRect i (grid (rest.length + 1) c).1
            (targetSize f.width f.height w h).1
            (targetSize f.width f.height w h).2) = fun i => i := rfl
      rw [this, List.map_id']
    · simp [emitMetadata]
    · exact ⟨_, create_seven, rfl, rfl, by decide, rfl⟩

/-- C8 witness: instantiation on the one-frame sample input. -/
theorem metadata_contents_witness :
    create_spritesheet sampleFrames none none none = .ok sampleMetadata ∧
    (sampleMetadata.meta.totalFrames = sampleMetadata.frames.length ∧
     sampleMetadata.frames.map FrameRect.index =
       List.range sampleMetadata.meta.totalFrames ∧
     sampleMetadata.meta.size =
       (sampleMetadata.meta.columns * sampleMetadata.meta.frameSize.1,
        sampleMetadata.meta.rows * sampleMetadata.meta.frameSize.2) ∧
     sampleMetadata.frames.length = sampleFrames.length ∧
     (∃ md7, create_spritesheet
         (List.replicate 7 { width := 4, height := 4 }) none none none = .ok md7 ∧
       md7.meta.columns = 3 ∧ md7.meta.rows = 3 ∧
       md7.frames.length = 7 ∧ md7.meta.totalFrames = 7)) :=
  ⟨create_sample,
   metadata_contents sampleFrames none none none sampleMetadata create_sample⟩

/-- C1 counterexample: the code truncates rather than rounds to nearest.
With `original = (3, 2)` and `width = 4`, the code computes
`target_height = int(2 * 4/3) = 2` while `round(2 * 4/3) = 3`; with
`original = (5, 5)` and `percent = 55`, the code computes
`int(5 * 0.55) = 2` while `round(5 * 55/100) = 3`. -/
theorem rounding_claim_counterexample :
    (targetSize 3 2 (some 4) none).2 = 2 ∧ round ((2 * 4 : ℚ) / 3) = 3 ∧
    percentTarget 5 5 55 = (2, 2) ∧ round ((5 : ℚ) * 55 / 100) = 3 := by
  refine ⟨by decide, ?_, ?_, ?_⟩
  · rw [round_eq]
    norm_num
  · unfold percentTarget pyInt
    norm_num
  · rw [round_eq]
    norm_num

/-- C1 amended: the scaled target sizes are the floor (Python `int()`
truncation) of the real-valued products, not the nearest-integer rounding:
with only `width` given, `target_height = ⌊original_height *
width/original_width⌋` (symmetrically for height-only), and with `percent`
given, each axis is `⌊original * percent/100⌋`. -/
theorem truncating_scale (ow oh wv hv : Nat) (p : ℚ)
    (_how : 0 < ow) (_hoh : 0 < oh) (hw : wv ≠ 0) (hh : hv ≠ 0) (hp : 0 ≤ p) :
    (targetSize ow oh (some wv) none).2 = ⌊(oh * wv : ℚ) / ow⌋₊ ∧
    (targetSize ow oh none (some hv)).1 = ⌊(ow * hv : ℚ) / oh⌋₊ ∧
    percentTarget ow oh p =
      (⌊(ow : ℚ) * p / 100⌋, ⌊(oh : ℚ) * p / 100⌋) := by
  refine ⟨?_, ?_, ?_⟩
  · have ht : targetSize ow oh (some wv) none = (wv, oh * wv / ow) := by
      simp [targetSize, truthy, hw]
    rw [ht, ← Nat.cast_mul, Nat.floor_div_nat, Nat.floor_natCast]
  · have ht : targetSize ow oh none (some hv) = (ow * hv / oh, hv) := by
      simp [targetSize, truthy, hh]
    rw [ht, ← Nat.cast_mul, Nat.floor_div_nat, Nat.floor_natCast]
  · unfold percentTarget pyInt
    have h1 : (0 : ℚ) ≤ (ow : ℚ) * (p / 100) :=
      mul_nonneg (Nat.cast_nonneg ow) (div_nonneg hp (by norm_num))
    have h2 : (0 : ℚ) ≤ (oh : ℚ) * (p / 100) :=
      mul_nonneg (Nat.cast_nonneg oh) (div_nonneg hp (by norm_num))
    rw [if_pos h1, if_pos h2, mul_div_assoc, mul_div_assoc]

/-- C1 amended witness: instantiation at `original = (3, 2)`, `width = 4`,
`height = 4`, `percent = 55`. -/
theorem truncating_scale_witness :
    (0 : ℕ) < 3 ∧ (0 : ℕ) < 2 ∧ (4 : ℕ) ≠ 0 ∧ (0 : ℚ) ≤ 55 ∧
    ((targetSize 3 2 (some 4) none).2 =
       ⌊(((2 : ℕ) : ℚ) * ((4 : ℕ) : ℚ)) / ((3 : ℕ) : ℚ)⌋₊ ∧
     (targetSize 3 2 none (some 4)).1 =
       ⌊(((3 : ℕ) : ℚ) * ((4 : ℕ) : ℚ)) / ((2 : ℕ) : ℚ)⌋₊ ∧
     percentTarget 3 2 55 =
       (⌊((3 : ℕ) : ℚ) * 55 / 100⌋, ⌊((2 : ℕ) : ℚ) * 55 / 100⌋)) :=
  ⟨by norm_num, by norm_num, by norm_num, by norm_num,
   truncating_scale 3 2 4 4 55 (by norm_num) (by norm_num) (by norm_num)
     (by norm_num) (by norm_num)⟩

/-- C2 counterexample: a zero-sized computed target dimension is not
detected.  With `original = (1, 1000)` and `percent = 50`, the percent
scaling yields `frame_width = int(0.5) = 0` and `frame_height = 500`;
`create_spritesheet` then treats the zero width as "not given" (falsy),
takes the height-only branch, computes `target_width = int(1 * 500/1000)
= 0`, and succeeds with a zero-sized frame dimension instead of failing
with any `InvalidInput` error. -/
theorem no_zero_dim_error_counterexample :
    percentTarget 1 1000 50 = (0, 500) ∧
    create_spritesheet [{ width := 1, height := 1000 }]
        (some 0) (some 500) none =
      .ok { frames := [{ index := 0, x := 0, y := 0, w := 0, h := 500 }],
            meta := { size := (0, 500), frameSize := (0, 500),
                      columns := 1, rows := 1, totalFrames := 1 } } := by
  constructor
  · unfold percentTarget pyInt
    rw [if_pos (by norm_num), if_pos (by norm_num)]
    norm_num
  · rw [create_spritesheet_cons]
    simp only [List.length_nil, Nat.zero_add]
    rw [grid_one]
    rfl

/-- C2 amended: the layout computation performs no zero-dimension check at
all: for every non-empty frame list it succeeds (its only failure is the
empty-input check), even when a computed target dimension is zero. -/
theorem layout_never_fails_on_nonempty (frames : List Frame)
    (w h c : Option Nat) :
    (∃ md, create_spritesheet frames w h c = .ok md) ↔ frames ≠ [] := by
  cases frames with
  | nil => simp [create_spritesheet]
  | cons f rest => simp [create_spritesheet_cons]

/-- C5 counterexample: a probe failure or a decode failure on one input
terminates the whole batch (`sys.exit(1)` inside `get_video_info` /
`extract_frames`), so the following video is never processed and no
summary counts are produced; only an empty extraction is a local failure. -/
theorem batch_abort_counterexample :
    runBatch [.probeFail, .success] = .error () ∧
    runBatch [.decodeFail, .success] = .error () ∧
    runBatch [.emptyFrames, .success] = .ok (1, 1) :=
  ⟨rfl, rfl, rfl⟩

lemma batchLoop_local (vs : List VideoOutcome) (s f : Nat)
    (hv : ∀ v ∈ vs, v = VideoOutcome.emptyFrames ∨ v = VideoOutcome.success) :
    batchLoop vs s f =
      .ok (s + vs.countP (· == VideoOutcome.success),
           f + vs.countP (· == VideoOutcome.emptyFrames)) := by
  induction vs generalizing s f with
  | nil => simp [batchLoop]
  | cons v rest ih =>
    have hv' : ∀ u ∈ rest,
        u = VideoOutcome.emptyFrames ∨ u = VideoOutcome.success :=
      fun u hu => hv u (List.mem_cons_of_mem _ hu)
    rcases hv v (List.mem_cons_self _ _) with rfl | rfl
    · show batchLoop rest s (f + 1) = _
      rw [ih _ _ hv']
      simp [List.countP_cons, Prod.ext_iff]
      omega
    · show batchLoop rest (s + 1) f = _
      rw [ih _ _ hv']
      simp [List.countP_cons, Prod.ext_iff]
      omega

/-- C5 amended: only empty-extraction failures are local in batch mode:
if every video either succeeds or fails by extracting zero frames, the
loop processes every input and reports the success and failure counts;
probe and decode failures instead abort the entire batch (see the
counterexample). -/
theorem batch_empty_extraction_local (vs : List VideoOutcome)
    (hv : ∀ v ∈ vs, v = VideoOutcome.emptyFrames ∨ v = VideoOutcome.success) :
    runBatch vs = .ok (vs.countP (· == VideoOutcome.success),
                       vs.countP (· == VideoOutcome.emptyFrames)) := by
  show batchLoop vs 0 0 = _
  rw [batchLoop_local vs 0 0 hv]
  simp

/-- C5 amended witness: a three-video batch with two empty extractions. -/
theorem batch_empty_extraction_local_witness :
    (∀ v ∈ [VideoOutcome.emptyFrames, VideoOutcome.success,
            VideoOutcome.emptyFrames],
       v = VideoOutcome.emptyFrames ∨ v = VideoOutcome.success) ∧
    runBatch [VideoOutcome.emptyFrames, VideoOutcome.success,
              VideoOutcome.emptyFrames] =
      .ok ([VideoOutcome.emptyFrames, VideoOutcome.success,
            VideoOutcome.emptyFrames].countP (· == VideoOutcome.success),
           [VideoOutcome.emptyFrames, VideoOutcome.success,
            VideoOutcome.emptyFrames].countP (· == VideoOutcome.emptyFrames)) :=
  ⟨by decide, batch_empty_extraction_local _ (by decide)⟩

end VideoToSpritesheet
